import Mathlib

/-!
Shallow embedding of `src/applications.py` (the FastAPI application /
composition layer) and proofs about its middleware-stack construction,
schema cache, setup-time validation, entry point, and error boundary.

Middleware descriptors, route handlers and exception handlers are opaque
capabilities in the source; they are modelled by identifiers (`Nat`) or
small tag types.  External collaborators (the starlette error-boundary
middleware and the schema generator `get_openapi`) are not part of the
repository's `src/`; where a claim depends on their behaviour they are
modelled from the spec, as marked in the doc comments.
-/

namespace FastAPIApp

/-- A Python error raised during configuration: either an attribute access on
a name that was never assigned, or a failed `assert` with its message. -/
inductive PyErr where
  | attributeError (name : String) : PyErr
  | assertionError (msg : String) : PyErr
  deriving DecidableEq, Repr

/-- Tag identifying the handler capability stored in a route record: the four
auxiliary handlers registered by `FastAPI.setup`, or a user handler. -/
inductive HandlerTag where
  | openapiJson : HandlerTag
  | swaggerUi : HandlerTag
  | swaggerUiOauth2Redirect : HandlerTag
  | redoc : HandlerTag
  | user (n : Nat) : HandlerTag
  deriving DecidableEq, Repr

/-- One route registration record held by the Route Registry
(`fastapi.routing.APIRouter` / starlette router, external to `src/`):
the registered path, the handler capability, the optional explicit method
list and name, and the visibility flag `include_in_schema`. -/
structure RouteRecord where
  path : String
  handler : HandlerTag
  methods : Option (List String) := none
  name : Option String := none
  include_in_schema : Bool := true
  deriving DecidableEq, Repr

/-- The Exception Handler Map: entries keyed by an error kind (or exact
status code), mapping to a handler capability, both modelled as `Nat`
identifiers.  `src/applications.py` stores it as a dict. -/
def HandlerMap := List (Nat × Nat)
  deriving DecidableEq, Repr

/-- The built handler chain (`ASGIApp`): the router's own dispatch capability
as a leaf, middleware layers produced by `middleware.cls(app=inner, ...)`,
and the `ServerErrorMiddleware` error-boundary layer carrying the debug flag
and the handler map it was constructed with. -/
inductive ASGIChain where
  | router : ASGIChain
  | middleware (cls : Nat) (inner : ASGIChain) : ASGIChain
  | serverError (inner : ASGIChain) (debug : Bool) (handler : HandlerMap) : ASGIChain
  deriving DecidableEq, Repr

/-- The generated description document.  Its content is produced by the
external schema generator `get_openapi` (fastapi.openapi.utils, not in
`src/`): a structured document over the snapshot of title, version,
description, routes, tags, servers, contact/license/terms metadata and the
fixed format-version string.  Because every generated document carries at
least the fixed format-version field, a populated cache is never an empty
(falsy) dict, so the source's `if not self.openapi_schema` test is exactly
an emptiness test on the optional cache slot. -/
structure OpenAPIDoc where
  openapi : String
  title : String
  version : String
  description : String
  paths : List String
  tags : List String
  servers : List String
  terms_of_service : Option String
  contact : Option String
  license_info : Option String
  openapi_prefix : String
  deriving DecidableEq, Repr

/-- The `FastAPI` application state after a successful construction: the
attributes assigned in `FastAPI.__init__` that the verified claims mention. -/
structure App where
  _debug : Bool := false
  router : List RouteRecord := []
  openapi_schema : Option OpenAPIDoc := none
  openapi_version : String := "3.1.0"
  openapi_url : Option String := some "/openapi.json"
  openapi_tags : List String := []
  servers : List String := []
  docs_url : Option String := some "/docs"
  redoc_url : Option String := some "/redoc"
  swagger_ui_oauth2_redirect_url : Option String := some "/docs/oauth2-redirect"
  title : String := "FastAPI"
  description : String := ""
  version : String := "0.1.0"
  terms_of_service : Option String := none
  contact : Option String := none
  license_info : Option String := none
  openapi_prefix : String := ""
  root_path : String := ""
  user_middleware : List Nat := []
  middleware_stack : ASGIChain := .router
  exception_handlers : HandlerMap := []

/-- `FastAPI.build_middleware_stack` (src/applications.py lines 341-349):
start from `self.router`, wrap with each element of
`reversed(self.user_middleware)`, and wrap the whole result in
`ServerErrorMiddleware(app=app, debug=self._debug, handler=self.exception_handlers)`. -/
def App.build_middleware_stack (s : App) : ASGIChain :=
  ASGIChain.serverError
    (s.user_middleware.reverse.foldl (fun a m => ASGIChain.middleware m a) ASGIChain.router)
    s._debug s.exception_handlers

/-- Spec-side formulation of the wrapped middleware chain: the front of the
sequence is the outermost middleware layer and the innermost link is the
router's dispatch capability. -/
def wrapSpec : List Nat → ASGIChain
  | [] => ASGIChain.router
  | m :: ms => ASGIChain.middleware m (wrapSpec ms)

/-- Python truthiness of an optional string attribute (`if self.openapi_url:`):
`None` and the empty string are falsy, every other string is truthy. -/
def strTruthy : Option String → Bool
  | none => false
  | some s => !(s == "")

/-- Python's `s.startswith(p)`: `p` is a prefix of `s`, on the character
sequences of the two strings. -/
def startswith (s p : String) : Bool := p.data.isPrefixOf s.data

/-- `FastAPI.add_route` (lines 283-308): delegates to
`self.router.add_route(path, route, methods=..., name=..., include_in_schema=...)`,
which appends one registration record to the Route Registry. -/
def App.add_route (s : App) (path : String) (handler : HandlerTag)
    (methods : Option (List String) := none) (name : Option String := none)
    (include_in_schema : Bool := true) : App :=
  { s with router := s.router ++
      [{ path := path, handler := handler, methods := methods, name := name,
         include_in_schema := include_in_schema }] }

/-- First block of `FastAPI.setup` (lines 178-186): if `self.openapi_url` is
truthy, assert it starts with `/` (raising `AssertionError` otherwise) and
register the schema-document route with `include_in_schema=False`. -/
def App.setupOpenapiRoute (s : App) : Except PyErr App :=
  if strTruthy s.openapi_url then
    if startswith (s.openapi_url.getD "") "/" then
      Except.ok (s.add_route (s.openapi_url.getD "") HandlerTag.openapiJson none none false)
    else
      Except.error (PyErr.assertionError "openapi_url should start with /")
  else
    Except.ok s

/-- Second block of `FastAPI.setup` (lines 187-208): if `self.openapi_url`
and `self.docs_url` are truthy, assert `docs_url` starts with `/` and
register the Swagger UI route; if additionally
`self.swagger_ui_oauth2_redirect_url` is truthy, assert it starts with `/`
and register the OAuth2 redirect route.  All with `include_in_schema=False`. -/
def App.setupDocsRoutes (s : App) : Except PyErr App :=
  if strTruthy s.openapi_url && strTruthy s.docs_url then
    if startswith (s.docs_url.getD "") "/" then
      let s := s.add_route (s.docs_url.getD "") HandlerTag.swaggerUi none none false
      if strTruthy s.swagger_ui_oauth2_redirect_url then
        if startswith (s.swagger_ui_oauth2_redirect_url.getD "") "/" then
          Except.ok (s.add_route (s.swagger_ui_oauth2_redirect_url.getD "")
            HandlerTag.swaggerUiOauth2Redirect none none false)
        else
          Except.error (PyErr.assertionError
            "swagger_ui_oauth2_redirect_url should start with /")
      else
        Except.ok s
    else
      Except.error (PyErr.assertionError "docs_url should start with /")
  else
    Except.ok s

/-- Third block of `FastAPI.setup` (lines 209-218): if `self.openapi_url` and
`self.redoc_url` are truthy, assert `redoc_url` starts with `/` and register
the ReDoc route with `include_in_schema=False`. -/
def App.setupRedocRoute (s : App) : Except PyErr App :=
  if strTruthy s.openapi_url && strTruthy s.redoc_url then
    if startswith (s.redoc_url.getD "") "/" then
      Except.ok (s.add_route (s.redoc_url.getD "") HandlerTag.redoc none none false)
    else
      Except.error (PyErr.assertionError "redoc_url should start with /")
  else
    Except.ok s

/-- `FastAPI.setup` (lines 176-218): the three registration blocks in source
order; a failed assert in any block aborts construction. -/
def App.setup (s : App) : Except PyErr App := do
  let s ← s.setupOpenapiRoute
  let s ← s.setupDocsRoutes
  s.setupRedocRoute

/-- Modelled from the spec: the external schema generator `get_openapi`
(fastapi.openapi.utils, not in `src/`) is a pure function from the snapshot of
title, version, description, the non-excluded Route Registry records, tag
metadata, server list, contact/license/terms-of-service metadata and the fixed
description-format version string to a structured document; it supplies the
snapshot fields verbatim and always carries the fixed format-version field. -/
def get_openapi (title version description : String) (routes : List RouteRecord)
    (tags servers : List String) (terms_of_service contact license_info : Option String)
    ( openapi_prefix openapi_version : String) : OpenAPIDoc :=
  { openapi := openapi_version
    title := title
    version := version
    description := description
    paths := (routes.filter (fun r => r.include_in_schema)).map (fun r => r.path)
    tags := tags
    servers := servers
    terms_of_service := terms_of_service
    contact := contact
    license_info := license_info
    openapi_prefix := openapi_prefix }

/-- `FastAPI.openapi` (lines 220-237): if `self.openapi_schema` is falsy
(the cache slot is empty — a populated slot is never a falsy dict, see
`OpenAPIDoc`), generate the document from the current snapshot and store it;
return the stored document. -/
def App.openapi (s : App) : OpenAPIDoc × App :=
  match s.openapi_schema with
  | some d => (d, s)
  | none =>
      let d := get_openapi s.title s.version s.description s.router s.openapi_tags
        s.servers s.terms_of_service s.contact s.license_info s.openapi_prefix
        s.openapi_version
      (d, { s with openapi_schema := some d })

/-- `FastAPI.add_middleware` (lines 326-339): insert the new descriptor at
index 0 of `self.user_middleware`, then rebuild and replace
`self.middleware_stack`. -/
def App.add_middleware (s : App) (middleware_class : Nat) : App :=
  let s := { s with user_middleware := middleware_class :: s.user_middleware }
  { s with middleware_stack := s.build_middleware_stack }

/-- The request context (ASGI scope): a mutable mapping; the entry point
writes its `root_path` key, the rest is carried opaquely. -/
structure Scope where
  root_path : String
  path : String
  rest : List (String × String)
  deriving DecidableEq, Repr

/-- A produced response: status code and body. -/
structure Response where
  status : Nat
  body : String
  deriving DecidableEq, Repr

/-- A raised failure: its error kind, the ordered generalization chain of
broader kinds, and its internal detail text. -/
structure Failure where
  kind : Nat
  generalizes : List Nat
  detail : String
  deriving DecidableEq, Repr

/-- Outcome of invoking one link of the chain on a request context: a
response, or a failure propagating outward. -/
inductive Outcome where
  | response (r : Response) : Outcome
  | raised (e : Failure) : Outcome
  deriving DecidableEq, Repr

/-- Modelled from the spec: the catch-all error kind terminating every
generalization chain. -/
def catchAllKind : Nat := 0

/-- First entry of the handler map whose key is the given kind. -/
def findKind (hs : HandlerMap) (k : Nat) : Option Nat :=
  match hs with
  | [] => none
  | (k', h) :: rest => if k' == k then some h else findKind rest k

/-- Modelled from the spec: handler lookup for a failure tries the exact
error kind, then each ancestor kind in the generalization chain, then the
catch-all kind, in that order; first match wins. -/
def lookupHandler (hs : HandlerMap) (e : Failure) : Option Nat :=
  (e.kind :: e.generalizes ++ [catchAllKind]).foldr
    (fun k acc => match findKind hs k with | some h => some h | none => acc) none

/-- Modelled from the spec: the generic opaque internal-error response
returned for an undeclared failure when `debug` is false; a constant, so no
internal detail of the failure leaks into it. -/
def genericServerError : Response :=
  { status := 500, body := "Internal Server Error" }

/-- Modelled from the spec: the diagnostic response returned for an
undeclared failure when `debug` is true, exposing failure details. -/
def debugResponse (e : Failure) : Response :=
  { status := 500, body := "Exception: " ++ e.detail }

/-- Semantics of one middleware capability: given the downstream handler, a
request context produces an outcome together with the failures the layer
reported to the host.  Middleware classes are external to `src/`, so their
semantics is a parameter of the evaluator. -/
def MWSem : Type :=
  Nat → (Scope → Outcome × List Failure) → Scope → Outcome × List Failure

/-- Semantics of the router's dispatch capability (external collaborator):
request context to outcome. -/
def RouterSem : Type := Scope → Outcome

/-- Semantics of an exception-handler capability from the handler map:
`(context, error) -> response`. -/
def HandlerSem : Type := Nat → Scope → Failure → Response

/-- Evaluator for a built chain, parameterized by the opaque middleware,
router-dispatch and exception-handler semantics.  It returns the outcome and
the list of failures reported upward to the hosting environment.  The
error-boundary layer is modelled from the spec (starlette's
`ServerErrorMiddleware` is not in `src/`): it catches a failure propagating
out of the inner chain; a failure matching the handler map (by
`lookupHandler`) is answered by that handler's response; otherwise, with
`debug` true, a diagnostic response is returned; otherwise the generic
internal-error response is returned and the failure is reported to the host. -/
def chainSem (msem : MWSem) (rsem : RouterSem) (hsem : HandlerSem) :
    ASGIChain → Scope → Outcome × List Failure
  | ASGIChain.router => fun scope => (rsem scope, [])
  | ASGIChain.middleware m inner => msem m (chainSem msem rsem hsem inner)
  | ASGIChain.serverError inner debug handler => fun scope =>
      match chainSem msem rsem hsem inner scope with
      | (Outcome.response r, reports) => (Outcome.response r, reports)
      | (Outcome.raised e, reports) =>
          match lookupHandler handler e with
          | some h => (Outcome.response (hsem h scope e), reports)
          | none =>
              if debug then (Outcome.response (debugResponse e), reports)
              else (Outcome.response genericServerError, reports ++ [e])

/-- The order in which the layers of a chain run a request's pre-processing,
outermost first: instrumentation of `chainSem` in which every middleware
records its identifier on entry and then forwards inward, and the boundary
forwards inward. -/
def chainTrace : ASGIChain → List Nat
  | ASGIChain.router => []
  | ASGIChain.middleware m inner => m :: chainTrace inner
  | ASGIChain.serverError inner _ _ => chainTrace inner

/-- `FastAPI.__call__` (lines 351-354): write the application's configured
root path into the request context's `root_path` key, overriding any value
already present, then forward the mutated context to the built chain. -/
def App.call (s : App) (msem : MWSem) (rsem : RouterSem) (hsem : HandlerSem)
    (scope : Scope) : Outcome × List Failure :=
  let scope := { scope with root_path := s.root_path }
  chainSem msem rsem hsem s.middleware_stack scope

/-- Whether a configuration-phase operation raised an error. -/
def raises {α : Type} : Except PyErr α → Bool
  | Except.error _ => true
  | Except.ok _ => false

/-- The instance attributes live partway through `FastAPI.__init__`:
`exception_handlers` and `middleware_stack` are `none` while the
corresponding `self.` attribute has not yet been assigned (no base-class
initializer runs, since `__init__` never calls one). -/
structure PreApp where
  _debug : Bool
  router : List RouteRecord
  openapi_schema : Option OpenAPIDoc
  openapi_version : String
  openapi_url : Option String
  openapi_tags : List String
  servers : List String
  docs_url : Option String
  redoc_url : Option String
  swagger_ui_oauth2_redirect_url : Option String
  title : String
  description : String
  version : String
  terms_of_service : Option String
  contact : Option String
  license_info : Option String
  openapi_prefix : String
  root_path : String
  user_middleware : List Nat
  middleware_stack : Option ASGIChain
  exception_handlers : Option HandlerMap

/-- Reading `self.exception_handlers` inside the initial
`build_middleware_stack()` call of `__init__`: an `AttributeError` if the
attribute has not been assigned yet. -/
def PreApp.get_exception_handlers (p : PreApp) : Except PyErr HandlerMap :=
  match p.exception_handlers with
  | some h => Except.ok h
  | none => Except.error (PyErr.attributeError "exception_handlers")

/-- `FastAPI.build_middleware_stack` as invoked from `__init__` (line 169):
identical to `App.build_middleware_stack`, but the read of
`self.exception_handlers` can raise `AttributeError` when the attribute is
still unassigned. -/
def PreApp.build_middleware_stack (p : PreApp) : Except PyErr ASGIChain := do
  let handler ← p.get_exception_handlers
  pure (ASGIChain.serverError
    (p.user_middleware.reverse.foldl (fun a m => ASGIChain.middleware m a) ASGIChain.router)
    p._debug handler)

/-- `FastAPI.__init__` (lines 60-174): assign the attributes in source order;
at line 169 `self.middleware_stack = self.build_middleware_stack()` runs
before `self.exception_handlers` is assigned (lines 170-172); finally call
`self.setup()`.  `middleware or []` and `exception_handlers or {}` are the
source's defaulting of the optional arguments. -/
def fastapiInit (debug : Bool := false) (routes : Option (List RouteRecord) := none)
    (title : String := "FastAPI") (description : String := "")
    (version : String := "0.1.0")
    (openapi_url : Option String := some "/openapi.json")
    (openapi_tags : List String := []) (servers : List String := [])
    (docs_url : Option String := some "/docs")
    (redoc_url : Option String := some "/redoc")
    (swagger_ui_oauth2_redirect_url : Option String := some "/docs/oauth2-redirect")
    (middleware : Option (List Nat) := none)
    (exception_handlers : Option HandlerMap := none)
    (terms_of_service : Option String := none) (contact : Option String := none)
    (license_info : Option String := none) ( openapi_prefix : String := "")
    (root_path : String := "") : Except PyErr App := do
  let p : PreApp :=
    { _debug := debug
      router := routes.getD []
      openapi_schema := none
      openapi_version := "3.1.0"
      openapi_url := openapi_url
      openapi_tags := openapi_tags
      servers := servers
      docs_url := docs_url
      redoc_url := redoc_url
      swagger_ui_oauth2_redirect_url := swagger_ui_oauth2_redirect_url
      title := title
      description := description
      version := version
      terms_of_service := terms_of_service
      contact := contact
      license_info := license_info
      openapi_prefix := openapi_prefix
      root_path := root_path
      user_middleware := middleware.getD []
      middleware_stack := none
      exception_handlers := none }
  let stack ← p.build_middleware_stack
  let s : App :=
    { _debug := p._debug
      router := p.router
      openapi_schema := p.openapi_schema
      openapi_version := p.openapi_version
      openapi_url := p.openapi_url
      openapi_tags := p.openapi_tags
      servers := p.servers
      docs_url := p.docs_url
      redoc_url := p.redoc_url
      swagger_ui_oauth2_redirect_url := p.swagger_ui_oauth2_redirect_url
      title := p.title
      description := p.description
      version := p.version
      terms_of_service := p.terms_of_service
      contact := p.contact
      license_info := p.license_info
      openapi_prefix := p.openapi_prefix
      root_path := p.root_path
      user_middleware := p.user_middleware
      middleware_stack := stack
      exception_handlers := exception_handlers.getD [] }
  s.setup

/-- Middleware semantics in which every middleware forwards the request
context unchanged to its downstream handler (the pass-through
instrumentation used to observe what the inner layers receive). -/
def passMW : MWSem := fun _ inner => inner

/-- Router-dispatch semantics that answers with the `root_path` the
dispatched context carries, making the effective root path observable in
the response. -/
def observeRootPath : RouterSem := fun scope =>
  Outcome.response { status := 200, body := scope.root_path }

/-- Exception-handler semantics used when instantiating the evaluator at
concrete inputs. -/
def constHandlerSem : HandlerSem := fun _ _ _ => genericServerError

/-- A batch of route registrations (path, handler, visibility) applied
through `add_route` in order. -/
def registerRoutes (s : App) (regs : List (String × HandlerTag × Bool)) : App :=
  regs.foldl (fun a r => a.add_route r.1 r.2.1 none none r.2.2) s

/-- Application with a configured root path and one middleware, its chain
built by `build_middleware_stack`. -/
def sampleRootApp : App :=
  { root_path := "/cfg", user_middleware := [5],
    middleware_stack :=
      App.build_middleware_stack { root_path := "/cfg", user_middleware := [5] } }

/-- A request context arriving with a root path of its own. -/
def sampleScope : Scope := { root_path := "/original", path := "/items", rest := [] }

/-- An undeclared failure raised by a route handler. -/
def boomFailure : Failure := { kind := 5, generalizes := [], detail := "boom" }

/-- Router-dispatch semantics whose handler raises `boomFailure`. -/
def raiseRouter : RouterSem := fun _ => Outcome.raised boomFailure

/-- Application with no middleware, no exception handlers and `debug=False`,
its chain built by `build_middleware_stack`. -/
def errorApp : App :=
  { middleware_stack := App.build_middleware_stack {} }

/-- Configuration with no schema path but a docs path missing the leading
separator. -/
def noOpenapiApp : App := { openapi_url := none, docs_url := some "docs" }

/-- Configuration with no schema path and all three other documentation
paths malformed (no leading separator). -/
def skipApp : App :=
  { openapi_url := none, docs_url := some "docs", redoc_url := some "redoc",
    swagger_ui_oauth2_redirect_url := some "oauth" }

/-- Default configuration except for a docs path missing the leading
separator. -/
def badDocsApp : App := { docs_url := some "docs" }

/-- The application state `setup` produces from a default-constructed
state: the four auxiliary routes, all registered with
`include_in_schema=False`. -/
def setupDefaultResult : App :=
  { router :=
      [{ path := "/openapi.json", handler := HandlerTag.openapiJson,
         methods := none, name := none, include_in_schema := false },
       { path := "/docs", handler := HandlerTag.swaggerUi,
         methods := none, name := none, include_in_schema := false },
       { path := "/docs/oauth2-redirect", handler := HandlerTag.swaggerUiOauth2Redirect,
         methods := none, name := none, include_in_schema := false },
       { path := "/redoc", handler := HandlerTag.redoc,
         methods := none, name := none, include_in_schema := false }] }

/-! Helper lemmas shared by the claim theorems. -/

theorem wrapSpec_eq_foldl_reverse (ms : List Nat) :
    ms.reverse.foldl (fun a m => ASGIChain.middleware m a) ASGIChain.router = wrapSpec ms := by
  induction ms with
  | nil => rfl
  | cons m ms ih =>
      simp only [List.reverse_cons, List.foldl_append, List.foldl_cons, List.foldl_nil]
      simp only [List.foldl_reverse] at ih ⊢
      rw [ih]
      rfl

theorem chainTrace_wrapSpec (ms : List Nat) : chainTrace (wrapSpec ms) = ms := by
  induction ms with
  | nil => rfl
  | cons m ms ih => simp [wrapSpec, chainTrace, ih]

theorem chainSem_wrapSpec_pass (hsem : HandlerSem) (ms : List Nat) (scope : Scope) :
    chainSem passMW observeRootPath hsem (wrapSpec ms) scope =
      (Outcome.response { status := 200, body := scope.root_path }, []) := by
  induction ms with
  | nil => rfl
  | cons m ms ih => simp [wrapSpec, chainSem, passMW, ih]

theorem openapi_populates (s : App) :
    (App.openapi s).2.openapi_schema = some (App.openapi s).1 := by
  unfold App.openapi
  cases h : s.openapi_schema with
  | some d => simp [h]
  | none => simp

theorem registerRoutes_openapi_schema (regs : List (String × HandlerTag × Bool)) (s : App) :
    (registerRoutes s regs).openapi_schema = s.openapi_schema := by
  induction regs generalizing s with
  | nil => rfl
  | cons r rs ih => simp [registerRoutes, List.foldl_cons, App.add_route] at ih ⊢; exact ih _

theorem openapi_cached (s : App) (d : OpenAPIDoc) (h : s.openapi_schema = some d) :
    App.openapi s = (d, s) := by
  unfold App.openapi
  rw [h]

theorem raises_bind {α β : Type} (x : Except PyErr α) (f : α → Except PyErr β)
    (h : ∀ a, x = Except.ok a → raises (f a) = true) : raises (x >>= f) = true := by
  cases x with
  | error e => rfl
  | ok a => simpa [bind, Except.bind] using h a rfl

theorem setupOpenapiRoute_ok (s s' : App) (h : App.setupOpenapiRoute s = Except.ok s') :
    s'.openapi_url = s.openapi_url ∧ s'.docs_url = s.docs_url ∧
    s'.redoc_url = s.redoc_url ∧
    s'.swagger_ui_oauth2_redirect_url = s.swagger_ui_oauth2_redirect_url ∧
    ∃ l, s'.router = s.router ++ l ∧ l.all (fun r => !r.include_in_schema) = true := by
  unfold App.setupOpenapiRoute at h
  split at h
  · split at h
    · cases h
      exact ⟨rfl, rfl, rfl, rfl, ⟨_, rfl, rfl⟩⟩
    · cases h
  · cases h
    exact ⟨rfl, rfl, rfl, rfl, ⟨[], by simp, rfl⟩⟩

theorem setupDocsRoutes_ok (s s' : App) (h : App.setupDocsRoutes s = Except.ok s') :
    s'.openapi_url = s.openapi_url ∧ s'.docs_url = s.docs_url ∧
    s'.redoc_url = s.redoc_url ∧
    s'.swagger_ui_oauth2_redirect_url = s.swagger_ui_oauth2_redirect_url ∧
    ∃ l, s'.router = s.router ++ l ∧ l.all (fun r => !r.include_in_schema) = true := by
  unfold App.setupDocsRoutes at h
  split at h
  · split at h
    · simp only [App.add_route] at h
      split at h
      · split at h
        · cases h
          exact ⟨rfl, rfl, rfl, rfl,
            ⟨[{ path := s.docs_url.getD "", handler := HandlerTag.swaggerUi,
                methods := none, name := none, include_in_schema := false },
              { path := s.swagger_ui_oauth2_redirect_url.getD "",
                handler := HandlerTag.swaggerUiOauth2Redirect,
                methods := none, name := none, include_in_schema := false }],
             by simp [App.add_route], rfl⟩⟩
        · cases h
      · cases h
        exact ⟨rfl, rfl, rfl, rfl, ⟨_, rfl, rfl⟩⟩
    · cases h
  · cases h
    exact ⟨rfl, rfl, rfl, rfl, ⟨[], by simp, rfl⟩⟩

theorem setupRedocRoute_ok (s s' : App) (h : App.setupRedocRoute s = Except.ok s') :
    s'.openapi_url = s.openapi_url ∧ s'.docs_url = s.docs_url ∧
    s'.redoc_url = s.redoc_url ∧
    s'.swagger_ui_oauth2_redirect_url = s.swagger_ui_oauth2_redirect_url ∧
    ∃ l, s'.router = s.router ++ l ∧ l.all (fun r => !r.include_in_schema) = true := by
  unfold App.setupRedocRoute at h
  split at h
  · split at h
    · cases h
      exact ⟨rfl, rfl, rfl, rfl, ⟨_, rfl, rfl⟩⟩
    · cases h
  · cases h
    exact ⟨rfl, rfl, rfl, rfl, ⟨[], by simp, rfl⟩⟩

theorem setupOpenapiRoute_fail (s : App) (h1 : strTruthy s.openapi_url = true)
    (h2 : startswith (s.openapi_url.getD "") "/" = false) :
    raises (App.setupOpenapiRoute s) = true := by
  unfold App.setupOpenapiRoute
  simp [h1, h2, raises]

theorem setupDocsRoutes_fail_docs (s : App) (h1 : strTruthy s.openapi_url = true)
    (hd : strTruthy s.docs_url = true)
    (h2 : startswith (s.docs_url.getD "") "/" = false) :
    raises (App.setupDocsRoutes s) = true := by
  unfold App.setupDocsRoutes
  simp [h1, hd, h2, raises]

theorem setupDocsRoutes_fail_oauth (s : App) (h1 : strTruthy s.openapi_url = true)
    (hd : strTruthy s.docs_url = true)
    (ho : strTruthy s.swagger_ui_oauth2_redirect_url = true)
    (h2 : startswith (s.swagger_ui_oauth2_redirect_url.getD "") "/" = false) :
    raises (App.setupDocsRoutes s) = true := by
  unfold App.setupDocsRoutes
  by_cases hds : startswith (s.docs_url.getD "") "/" = true
  · simp [h1, hd, hds, App.add_route, ho, h2, raises]
  · simp [h1, hd, Bool.of_not_eq_true hds, raises]

theorem setupRedocRoute_fail (s : App) (h1 : strTruthy s.openapi_url = true)
    (hr : strTruthy s.redoc_url = true)
    (h2 : startswith (s.redoc_url.getD "") "/" = false) :
    raises (App.setupRedocRoute s) = true := by
  unfold App.setupRedocRoute
  simp [h1, hr, h2, raises]

/-! Theorems settling the claims. -/

/-- C1: for every middleware sequence, `build_middleware_stack` returns a
chain whose innermost link is the router's dispatch capability, wrapped by
the middleware so that the front of the sequence is the outermost
middleware (`wrapSpec` is exactly that spec-side shape, bottoming out at
`ASGIChain.router`), with the error-boundary layer wrapping the entire
result as the outermost layer of all. -/
theorem build_stack_router_innermost_front_outermost (s : App) :
    App.build_middleware_stack s =
      ASGIChain.serverError (wrapSpec s.user_middleware) s._debug s.exception_handlers := by
  unfold App.build_middleware_stack
  rw [wrapSpec_eq_foldl_reverse]

/-- C2: the code contradicts the claim that the initially built chain's
error boundary is constructed from the Application's Exception Handler Map:
`__init__` calls `build_middleware_stack()` (line 169) before assigning
`self.exception_handlers` (lines 170-172), so the initial build reads an
attribute that does not exist yet and every construction raises
`AttributeError` instead of producing a chain from the supplied map. -/
theorem fastapiInit_reads_unassigned_exception_handlers
    (debug : Bool) (routes : Option (List RouteRecord)) (title description version : String)
    (openapi_url : Option String) (openapi_tags servers : List String)
    (docs_url redoc_url swagger_ui_oauth2_redirect_url : Option String)
    (middleware : Option (List Nat)) (exception_handlers : Option HandlerMap)
    (terms_of_service contact license_info : Option String)
    ( openapi_prefix root_path : String) :
    fastapiInit debug routes title description version openapi_url openapi_tags servers
        docs_url redoc_url swagger_ui_oauth2_redirect_url middleware exception_handlers
        terms_of_service contact license_info openapi_prefix root_path =
      Except.error (PyErr.attributeError "exception_handlers") := rfl

/-- C4: `add_middleware` inserts the new descriptor at the front of the
middleware sequence and immediately rebuilds the chain, so that after adding
`m2` after `m1` the pre-processing order of the built chain runs `m2` before
`m1` (and before all previously present middleware). -/
theorem add_middleware_front_insert_outermost (s : App) (m1 m2 : Nat) :
    (App.add_middleware (App.add_middleware s m1) m2).user_middleware =
        m2 :: m1 :: s.user_middleware ∧
    (App.add_middleware (App.add_middleware s m1) m2).middleware_stack =
        App.build_middleware_stack (App.add_middleware (App.add_middleware s m1) m2) ∧
    chainTrace (App.add_middleware (App.add_middleware s m1) m2).middleware_stack =
        m2 :: m1 :: s.user_middleware := by
  refine ⟨rfl, rfl, ?_⟩
  show chainTrace (App.build_middleware_stack
    { s with user_middleware := m2 :: m1 :: s.user_middleware,
             middleware_stack := (App.add_middleware s m1).middleware_stack }) = _
  unfold App.build_middleware_stack
  simp only [chainTrace]
  rw [wrapSpec_eq_foldl_reverse, chainTrace_wrapSpec]

/-- C10: `add_middleware` modifies only the middleware sequence and the
built chain reference; the Route Registry, the Exception Handler Map, the
cached description document, the debug flag, the root path and all metadata
and configuration fields are unchanged. -/
theorem add_middleware_frame (s : App) (m : Nat) :
    (App.add_middleware s m).router = s.router ∧
    (App.add_middleware s m).exception_handlers = s.exception_handlers ∧
    (App.add_middleware s m).openapi_schema = s.openapi_schema ∧
    (App.add_middleware s m)._debug = s._debug ∧
    (App.add_middleware s m).root_path = s.root_path ∧
    (App.add_middleware s m).title = s.title ∧
    (App.add_middleware s m).version = s.version ∧
    (App.add_middleware s m).description = s.description ∧
    (App.add_middleware s m).openapi_url = s.openapi_url ∧
    (App.add_middleware s m).docs_url = s.docs_url ∧
    (App.add_middleware s m).redoc_url = s.redoc_url ∧
    (App.add_middleware s m).swagger_ui_oauth2_redirect_url =
        s.swagger_ui_oauth2_redirect_url ∧
    (App.add_middleware s m).openapi_version = s.openapi_version ∧
    (App.add_middleware s m).openapi_tags = s.openapi_tags ∧
    (App.add_middleware s m).servers = s.servers ∧
    (App.add_middleware s m).terms_of_service = s.terms_of_service ∧
    (App.add_middleware s m).contact = s.contact ∧
    (App.add_middleware s m).license_info = s.license_info ∧
    App.openapi_prefix (App.add_middleware s m) = App.openapi_prefix s :=
  ⟨rfl, rfl, rfl, rfl, rfl, rfl, rfl, rfl, rfl, rfl, rfl, rfl, rfl, rfl, rfl, rfl,
   rfl, rfl, rfl⟩

/-- C3: two calls to `openapi` on the same Application with no intervening
cache reset return identical documents, and the second call returns the
stored result unconditionally (leaving the state untouched), even if routes
were registered on the registry between the calls. -/
theorem openapi_memoized (s : App) (regs : List (String × HandlerTag × Bool)) :
    (App.openapi (registerRoutes (App.openapi s).2 regs)).1 = (App.openapi s).1 ∧
    (App.openapi (registerRoutes (App.openapi s).2 regs)).2 =
        registerRoutes (App.openapi s).2 regs := by
  have h : (registerRoutes (App.openapi s).2 regs).openapi_schema =
      some (App.openapi s).1 := by
    rw [registerRoutes_openapi_schema, openapi_populates]
  have h2 := openapi_cached (registerRoutes (App.openapi s).2 regs) (App.openapi s).1 h
  exact ⟨by rw [h2], by rw [h2]⟩

/-- C5: the entry point stamps the request context's root-path field with the
Application's configured root path, overriding any value already present,
before forwarding to the built chain; under pass-through middleware a router
that reports the root path it sees always observes the configured root path,
whatever the incoming context carried. -/
theorem call_overrides_root_path (s : App) (hsem : HandlerSem) (scope : Scope)
    (hstack : s.middleware_stack = App.build_middleware_stack s) :
    (∀ msem rsem, App.call s msem rsem hsem scope =
        chainSem msem rsem hsem s.middleware_stack
          { scope with root_path := s.root_path }) ∧
    (App.call s passMW observeRootPath hsem scope).1 =
        Outcome.response { status := 200, body := s.root_path } := by
  constructor
  · intro msem rsem
    rfl
  · unfold App.call
    rw [hstack]
    unfold App.build_middleware_stack
    rw [wrapSpec_eq_foldl_reverse]
    simp [chainSem, chainSem_wrapSpec_pass]

theorem call_overrides_root_path_witness :
    sampleScope.root_path = "/original" ∧
    sampleRootApp.root_path = "/cfg" ∧
    sampleRootApp.middleware_stack = App.build_middleware_stack sampleRootApp ∧
    (App.call sampleRootApp passMW observeRootPath constHandlerSem sampleScope).1 =
        Outcome.response { status := 200, body := "/cfg" } :=
  ⟨rfl, rfl, rfl,
   (call_overrides_root_path sampleRootApp constHandlerSem sampleScope rfl).2⟩

/-- C7: when a dispatched request's handling raises a failure with no
matching entry in the Exception Handler Map and the debug flag is false, the
entry point produces exactly one response — the generic internal-error
response, a constant carrying no detail of the failure — and the failure is
reported to the hosting environment exactly once; the failure does not
escape past the error boundary. -/
theorem undeclared_failure_generic_and_reported_once (s : App) (msem : MWSem)
    (rsem : RouterSem) (hsem : HandlerSem) (scope : Scope) (e : Failure)
    (hstack : s.middleware_stack = App.build_middleware_stack s)
    (hdebug : s._debug = false)
    (hraise : chainSem msem rsem hsem (wrapSpec s.user_middleware)
        { scope with root_path := s.root_path } = (Outcome.raised e, []))
    (hmatch : lookupHandler s.exception_handlers e = none) :
    App.call s msem rsem hsem scope = (Outcome.response genericServerError, [e]) := by
  unfold App.call
  rw [hstack]
  unfold App.build_middleware_stack
  rw [wrapSpec_eq_foldl_reverse]
  simp [chainSem, hraise, hmatch, hdebug]

theorem undeclared_failure_generic_and_reported_once_witness :
    errorApp.middleware_stack = App.build_middleware_stack errorApp ∧
    errorApp._debug = false ∧
    chainSem passMW raiseRouter constHandlerSem (wrapSpec errorApp.user_middleware)
        { sampleScope with root_path := errorApp.root_path } =
      (Outcome.raised boomFailure, []) ∧
    lookupHandler errorApp.exception_handlers boomFailure = none ∧
    App.call errorApp passMW raiseRouter constHandlerSem sampleScope =
        (Outcome.response genericServerError, [boomFailure]) :=
  ⟨rfl, rfl, rfl, rfl,
   undeclared_failure_generic_and_reported_once errorApp passMW raiseRouter
     constHandlerSem sampleScope boomFailure rfl rfl rfl rfl⟩

/-- C9: when `openapi_url` is configured as absent, `setup` registers no
auxiliary routes at all and skips the separator validation of the other
configured paths entirely, succeeding with the state unchanged. -/
theorem setup_skips_all_when_openapi_url_none (s : App) (h : s.openapi_url = none) :
    App.setup s = Except.ok s := by
  unfold App.setup App.setupOpenapiRoute App.setupDocsRoutes App.setupRedocRoute
  simp [h, strTruthy, bind, Except.bind]

theorem setup_skips_all_when_openapi_url_none_witness :
    skipApp.openapi_url = none ∧
    skipApp.docs_url = some "docs" ∧
    (startswith "docs" "/") = false ∧
    App.setup skipApp = Except.ok skipApp :=
  ⟨rfl, rfl, by decide, setup_skips_all_when_openapi_url_none skipApp rfl⟩

/-- C6 counterexample: a configuration whose `docs_url` is supplied without
the leading separator but whose `openapi_url` is `None` does not fail fast —
`setup` succeeds and performs no separator check at all, so the claim's
"for every configuration" is false as stated. -/
theorem setup_bad_docs_url_not_failing :
    noOpenapiApp.docs_url = some "docs" ∧
    startswith "docs" "/" = false ∧
    App.setup noOpenapiApp = Except.ok noOpenapiApp :=
  ⟨rfl, rfl, rfl⟩

/-- C6 (amended): provided the configured `openapi_url` is truthy, setup
fails fast when any supplied documentation path misses the leading
separator: `openapi_url` itself, `docs_url` (when truthy), the OAuth2
redirect path (when `docs_url` is also truthy), and `redoc_url` (when
truthy). -/
theorem setup_separator_checks (s : App) :
    (strTruthy s.openapi_url = true →
        startswith (s.openapi_url.getD "") "/" = false →
        raises (App.setup s) = true) ∧
    (strTruthy s.openapi_url = true → strTruthy s.docs_url = true →
        startswith (s.docs_url.getD "") "/" = false →
        raises (App.setup s) = true) ∧
    (strTruthy s.openapi_url = true → strTruthy s.docs_url = true →
        strTruthy s.swagger_ui_oauth2_redirect_url = true →
        startswith (s.swagger_ui_oauth2_redirect_url.getD "") "/" = false →
        raises (App.setup s) = true) ∧
    (strTruthy s.openapi_url = true → strTruthy s.redoc_url = true →
        startswith (s.redoc_url.getD "") "/" = false →
        raises (App.setup s) = true) := by
  refine ⟨?_, ?_, ?_, ?_⟩
  · intro h1 h2
    unfold App.setup
    apply raises_bind
    intro s1 h1ok
    have hf := setupOpenapiRoute_fail s h1 h2
    rw [h1ok] at hf
    simp [raises] at hf
  · intro h1 hd h2
    unfold App.setup
    apply raises_bind
    intro s1 h1ok
    obtain ⟨hu, hdoc, _, _, _⟩ := setupOpenapiRoute_ok s s1 h1ok
    apply raises_bind
    intro s2 h2ok
    have hf := setupDocsRoutes_fail_docs s1 (hu ▸ h1) (hdoc ▸ hd) (hdoc ▸ h2)
    rw [h2ok] at hf
    simp [raises] at hf
  · intro h1 hd ho h2
    unfold App.setup
    apply raises_bind
    intro s1 h1ok
    obtain ⟨hu, hdoc, _, hoa, _⟩ := setupOpenapiRoute_ok s s1 h1ok
    apply raises_bind
    intro s2 h2ok
    have hf := setupDocsRoutes_fail_oauth s1 (hu ▸ h1) (hdoc ▸ hd) (hoa ▸ ho) (hoa ▸ h2)
    rw [h2ok] at hf
    simp [raises] at hf
  · intro h1 hr h2
    unfold App.setup
    apply raises_bind
    intro s1 h1ok
    obtain ⟨hu, _, hre, _, _⟩ := setupOpenapiRoute_ok s s1 h1ok
    apply raises_bind
    intro s2 h2ok
    obtain ⟨hu2, _, hre2, _, _⟩ := setupDocsRoutes_ok s1 s2 h2ok
    exact setupRedocRoute_fail s2 (hu2 ▸ hu ▸ h1) (hre2 ▸ hre ▸ hr) (hre2 ▸ hre ▸ h2)

theorem setup_separator_checks_witness :
    strTruthy badDocsApp.openapi_url = true ∧
    strTruthy badDocsApp.docs_url = true ∧
    startswith (badDocsApp.docs_url.getD "") "/" = false ∧
    raises (App.setup badDocsApp) = true :=
  ⟨rfl, rfl, rfl, (setup_separator_checks badDocsApp).2.1 rfl rfl rfl⟩

/-- C8: every auxiliary route `setup` registers (the schema-document route,
the interactive-docs route, the OAuth2 redirect route, and the
alternate-docs route) is appended with `include_in_schema = false`; the
pre-existing registrations are untouched. -/
theorem setup_aux_routes_excluded (s s' : App) (h : App.setup s = Except.ok s') :
    s'.router.take s.router.length = s.router ∧
    (s'.router.drop s.router.length).all (fun r => !r.include_in_schema) = true := by
  unfold App.setup at h
  cases hx : App.setupOpenapiRoute s with
  | error e => rw [hx] at h; simp [bind, Except.bind] at h
  | ok s1 =>
    rw [hx] at h
    simp only [bind, Except.bind] at h
    cases hy : App.setupDocsRoutes s1 with
    | error e => rw [hy] at h; simp [Except.bind] at h
    | ok s2 =>
      rw [hy] at h
      obtain ⟨_, _, _, _, l1, hr1, ha1⟩ := setupOpenapiRoute_ok s s1 hx
      obtain ⟨_, _, _, _, l2, hr2, ha2⟩ := setupDocsRoutes_ok s1 s2 hy
      obtain ⟨_, _, _, _, l3, hr3, ha3⟩ := setupRedocRoute_ok s2 s' h
      rw [hr3, hr2, hr1, List.append_assoc, List.append_assoc]
      constructor
      · exact List.take_left _ _
      · rw [List.drop_left]
        simp only [List.all_append, Bool.and_eq_true]
        exact ⟨ha1, ha2, ha3⟩

theorem setup_aux_routes_excluded_witness :
    App.setup ({} : App) = Except.ok setupDefaultResult ∧
    setupDefaultResult.router.take (({} : App)).router.length = (({} : App)).router ∧
    (setupDefaultResult.router.drop (({} : App)).router.length).all
        (fun r => !r.include_in_schema) = true :=
  ⟨rfl, (setup_aux_routes_excluded {} setupDefaultResult rfl).1,
   (setup_aux_routes_excluded {} setupDefaultResult rfl).2⟩

end FastAPIApp

